import Mathlib

/-!
Verification of the xleak spreadsheet viewer's navigation and data-windowing
engine against its specification.

The Rust source is shallowly embedded: `usize` is modelled by `Nat`, with an
explicit `% 2 ^ 64` at the operations where the Rust code can wrap (release
builds compile arithmetic with two's-complement wrapping); `saturating_sub`
coincides with truncated `Nat` subtraction.  Slice indexing that can abort at
run time is modelled with `Option` (`none` = out-of-bounds slice).  Cell
contents are modelled by their display strings, which is all the search and
windowing code ever inspects.
-/

namespace Xleak

/-- The modulus of the 64-bit `usize` type. -/
def U64 : Nat := 2 ^ 64

/-- Wrapping subtraction on `usize` (release-build semantics of `a - b`). -/
def wrapSub64 (a b : Nat) : Nat := (a + (U64 - b % U64)) % U64

/-- Wrapping addition on `usize` (release-build semantics of `a + b`). -/
def wrapAdd64 (a b : Nat) : Nat := (a + b) % U64

/-! ### Calendar conversion (chrono `NaiveDate` is the proleptic Gregorian
calendar; `civilFromDays` converts a count of days since 1970-01-01 into
year/month/day exactly as chrono does). -/

/-- Convert days since 1970-01-01 to a proleptic-Gregorian (year, month, day). -/
def civilFromDays (z : Int) : Int × Nat × Nat :=
  let n : Int := z + 719468
  let era : Int := n.fdiv 146097
  let doe : Nat := (n - era * 146097).toNat
  let yoe : Nat := (doe - doe / 1460 + doe / 36524 - doe / 146096) / 365
  let doy : Nat := doe - (365 * yoe + yoe / 4 - yoe / 100)
  let mp : Nat := (5 * doy + 2) / 153
  let d : Nat := doy - (153 * mp + 2) / 5 + 1
  let m : Nat := if mp < 10 then mp + 3 else mp - 9
  let y : Int := era * 400 + yoe
  (if m ≤ 2 then y + 1 else y, m, d)

/-- Zero-pad a month or day to two digits (chrono date formatting). -/
def pad2 (n : Nat) : String := if n < 10 then "0" ++ toString n else toString n

/-- Zero-pad a (non-negative) year to four digits (chrono date formatting). -/
def pad4 (y : Int) : String :=
  let n := y.toNat
  if n < 10 then "000" ++ toString n
  else if n < 100 then "00" ++ toString n
  else if n < 1000 then "0" ++ toString n
  else toString n

/-- Render a civil date as chrono renders a `NaiveDate`: `YYYY-MM-DD`. -/
def formatCivil (c : Int × Nat × Nat) : String :=
  pad4 c.1 ++ "-" ++ pad2 c.2.1 ++ "-" ++ pad2 c.2.2

/-- The date string of Excel serial day `d` measured from the epoch
1899-12-30 (which is 25569 days before 1970-01-01). -/
def excelSerialDate (d : Int) : String := formatCivil (civilFromDays (d - 25569))

/-- Days from 1970-01-01 to chrono's `NaiveDate::MIN` (January 1 of
astronomical year -262144, i.e. `i32::MIN >> 13`). -/
def chronoMinDays : Int := -96465658

/-- Days from 1970-01-01 to chrono's `NaiveDate::MAX` (December 31 of year
262143, i.e. `i32::MAX >> 13`). -/
def chronoMaxDays : Int := 95026601

/-- The largest day count accepted by chrono's `Duration::days` (TimeDelta
is bounded to `i64::MAX` milliseconds, and
`i64::MAX / 86_400_000 = 106751991167`); `Duration::days` aborts beyond
`±durationMaxDays`. -/
def durationMaxDays : Int := 106751991167

/-- The DateTime arm of `CellValue::to_raw_string` for a serial with zero
time fraction: `epoch + Duration::days(dt.floor())`, formatted `%Y-%m-%d`.
No leap-year-bug adjustment is made on this path.  `Duration::days` aborts
outside `±durationMaxDays`, and the unchecked `NaiveDate + Duration` aborts
when the result leaves chrono's representable date range; both abort paths
are modelled by `none`. -/
def cellDateTimeRawString (d : Int) : Option String :=
  if -durationMaxDays ≤ d ∧ d ≤ durationMaxDays then
    if chronoMinDays ≤ d - 25569 ∧ d - 25569 ≤ chronoMaxDays then
      some (excelSerialDate d)
    else none
  else none

/-- The DateTime arm of `impl Display for CellValue` for a serial with zero
time fraction: the day count is reduced by one whenever it exceeds 60
(the documented 1900 leap-year-bug adjustment), then added to the epoch via
`checked_add_signed`; when that returns `None` the arm falls back to
rendering `Date[{days}]` with the unadjusted day count.  The
`Duration::days` constructor still aborts outside `±durationMaxDays`
(modelled by `none`). -/
def cellDateTimeDisplayString (d : Int) : Option String :=
  let adj := if 60 < d then d - 1 else d
  if -durationMaxDays ≤ adj ∧ adj ≤ durationMaxDays then
    if chronoMinDays ≤ adj - 25569 ∧ adj - 25569 ≤ chronoMaxDays then
      some (excelSerialDate adj)
    else some ("Date[" ++ toString d ++ "]")
  else none

/-! ### Session state (`TuiState`) and the navigation operations. -/

/-- Identity and post-header dimensions of one sheet of the workbook. -/
structure Sheet where
  name : String
  height : Nat
  width : Nat
deriving Repr, DecidableEq

/-- The fields of `TuiState` that the verified operations read or write.
`sheets` models the workbook's sheet list together with the dimensions the
data source of each sheet would report. -/
structure TuiState where
  sheets : List Sheet
  currentSheetIndex : Nat
  cursorRow : Nat
  cursorCol : Nat
  scrollOffset : Nat
  searchQuery : String
  searchMatches : List (Nat × Nat)
  currentMatchIndex : Option Nat
  jumpMode : Bool
  jumpInput : String
  feedback : Option String
deriving Repr, DecidableEq

/-- Models `self.sheet_data.height()` for the active sheet. -/
def TuiState.height (st : TuiState) : Nat :=
  (st.sheets.getD st.currentSheetIndex ⟨"", 0, 0⟩).height

/-- Models `self.sheet_data.width()` for the active sheet. -/
def TuiState.width (st : TuiState) : Nat :=
  (st.sheets.getD st.currentSheetIndex ⟨"", 0, 0⟩).width

/-- Models `TuiState::move_up`. -/
def moveUp (st : TuiState) : TuiState :=
  if 0 < st.cursorRow then
    let r := st.cursorRow - 1
    { st with cursorRow := r,
              scrollOffset := if r < st.scrollOffset then r else st.scrollOffset }
  else st

/-- Models `TuiState::move_down`. -/
def moveDown (st : TuiState) : TuiState :=
  if st.cursorRow < st.height - 1 then { st with cursorRow := st.cursorRow + 1 } else st

/-- Models `TuiState::move_left`. -/
def moveLeft (st : TuiState) : TuiState :=
  if 0 < st.cursorCol then { st with cursorCol := st.cursorCol - 1 } else st

/-- Models `TuiState::move_right`. -/
def moveRight (st : TuiState) : TuiState :=
  if st.cursorCol < st.width - 1 then { st with cursorCol := st.cursorCol + 1 } else st

/-- Models `TuiState::move_to_start_of_row`. -/
def moveToStartOfRow (st : TuiState) : TuiState := { st with cursorCol := 0 }

/-- Models `TuiState::move_to_end_of_row`. -/
def moveToEndOfRow (st : TuiState) : TuiState := { st with cursorCol := st.width - 1 }

/-- Models `TuiState::page_up`. -/
def pageUp (st : TuiState) (pageSize : Nat) : TuiState :=
  { st with cursorRow := st.cursorRow - pageSize }

/-- Models `TuiState::page_down`. -/
def pageDown (st : TuiState) (pageSize : Nat) : TuiState :=
  { st with cursorRow := min (st.cursorRow + pageSize) (st.height - 1) }

/-- Models `TuiState::move_to_top`. -/
def moveToTop (st : TuiState) : TuiState := { st with cursorRow := 0 }

/-- Models `TuiState::move_to_bottom`. -/
def moveToBottom (st : TuiState) : TuiState := { st with cursorRow := st.height - 1 }

/-- Models `TuiState::update_scroll`.  The guard sum
`scroll_offset + viewport_height` and the expression `viewport_height - 1`
are plain `usize` arithmetic, so both wrap (the subtraction wraps when the
viewport height is zero); `cursor_row.saturating_sub` is truncated `Nat`
subtraction. -/
def updateScroll (st : TuiState) (viewportHeight : Nat) : TuiState :=
  let s1 := if wrapAdd64 st.scrollOffset viewportHeight ≤ st.cursorRow then
              st.cursorRow - wrapSub64 viewportHeight 1
            else st.scrollOffset
  let s2 := if st.cursorRow < s1 then st.cursorRow else s1
  { st with scrollOffset := s2 }

/-- Models `TuiState::reset_cursor`. -/
def resetCursor (st : TuiState) : TuiState :=
  { st with cursorRow := 0, cursorCol := 0, scrollOffset := 0 }

/-- Models `TuiState::clear_search`. -/
def clearSearch (st : TuiState) : TuiState :=
  { st with searchQuery := "", searchMatches := [], currentMatchIndex := none }

/-- Models `TuiState::switch_to_next_sheet` (the reload of the sheet data always
succeeds in the model; its dimensions are read off the `sheets` list). -/
def switchToNextSheet (st : TuiState) : TuiState :=
  if st.sheets.length ≤ 1 then st
  else
    clearSearch (resetCursor
      { st with currentSheetIndex := (st.currentSheetIndex + 1) % st.sheets.length })

/-- Models `TuiState::switch_to_prev_sheet`. -/
def switchToPrevSheet (st : TuiState) : TuiState :=
  if st.sheets.length ≤ 1 then st
  else
    let i := if st.currentSheetIndex = 0 then st.sheets.length - 1
             else st.currentSheetIndex - 1
    clearSearch (resetCursor { st with currentSheetIndex := i })

/-! ### The jump resolver (`perform_jump` / `parse_cell_address`). -/

/-- Rust `str::trim`: drop whitespace from both ends. -/
def strTrim (s : String) : String :=
  String.mk (((s.data.dropWhile Char.isWhitespace).reverse.dropWhile
    Char.isWhitespace).reverse)

/-- Rust `str::parse::<usize>`: an optional leading plus sign, one or more
ASCII digits, and the value must fit in 64 bits (`Err` on overflow). -/
def parseUsize (s : String) : Option Nat :=
  let cs := match s.data with
            | '+' :: rest => rest
            | cs => cs
  if cs ≠ [] ∧ cs.all Char.isDigit then
    let v := cs.foldl (fun a c => a * 10 + (c.toNat - 48)) 0
    if v < U64 then some v else none
  else none

/-- The character loop of `TuiState::parse_cell_address`: letters accumulate
the base-26 column (wrapping `usize` arithmetic), digits accumulate the row
string, anything else rejects the address. -/
def cellAddrLoop : List Char → Nat → List Char → Option (Nat × List Char)
  | [], col, rowStr => some (col, rowStr)
  | c :: cs, col, rowStr =>
    if ('A' ≤ c ∧ c ≤ 'Z') ∨ ('a' ≤ c ∧ c ≤ 'z') then
      cellAddrLoop cs ((col * 26 + (c.toNat - 65 + 1)) % U64) rowStr
    else if c.isDigit then
      cellAddrLoop cs col (rowStr ++ [c])
    else none

/-- Models `TuiState::parse_cell_address`: uppercase the input, scan it, reject when
no digits were seen or the column is zero, and return the zero-indexed
`(col, row)` pair.  The two trailing `- 1` subtractions are plain `usize`
subtractions and hence wrap; a parsed row of `0` yields `2 ^ 64 - 1`. -/
def parseCellAddress (addr : String) : Option (Nat × Nat) :=
  let up := String.mk (addr.data.map Char.toUpper)
  match cellAddrLoop up.data 0 [] with
  | none => none
  | some (col, rowStr) =>
    if rowStr = [] ∨ col = 0 then none
    else match parseUsize (String.mk rowStr) with
         | none => none
         | some row => some (wrapSub64 col 1, wrapSub64 row 1)

/-- Rust `str::split_once(',')`: split at the first comma. -/
def splitOnceComma (s : String) : Option (String × String) :=
  match s.data.findIdx? (· = ',') with
  | none => none
  | some i => some (String.mk (s.data.take i), String.mk (s.data.drop (i + 1)))

/-- The epilogue of `perform_jump`: leave jump mode and clear the buffer. -/
def jumpDone (st : TuiState) : TuiState := { st with jumpMode := false, jumpInput := "" }

/-- Models `TuiState::perform_jump`: try a bare 1-indexed row number, then a
spreadsheet-style address, then a `row,col` pair; every outcome other than an
empty buffer posts a feedback message, and only an in-bounds target moves the
cursor.  The buffer is consumed and jump mode left on every path. -/
def performJump (st : TuiState) : TuiState :=
  if st.jumpInput = "" then { st with jumpMode := false }
  else
    let input := strTrim st.jumpInput
    let done := jumpDone
    match parseUsize input with
    | some rowNum =>
      if 0 < rowNum ∧ rowNum ≤ st.height then
        done { st with cursorRow := rowNum - 1,
                       feedback := some ("Jumped to row " ++ toString rowNum) }
      else
        done { st with feedback := some ("Invalid row: " ++ toString rowNum ++
                 " (max: " ++ toString st.height ++ ")") }
    | none =>
      match parseCellAddress input with
      | some (col, row) =>
        if row < st.height ∧ col < st.width then
          done { st with cursorRow := row, cursorCol := col,
                         feedback := some ("Jumped to " ++
                           String.mk (input.data.map Char.toUpper)) }
        else
          done { st with feedback := some ("Cell address out of bounds: " ++ input) }
      | none =>
        match splitOnceComma input with
        | some (r, c) =>
          match parseUsize (strTrim r), parseUsize (strTrim c) with
          | some rowNum, some colNum =>
            if 0 < rowNum ∧ rowNum ≤ st.height ∧ 0 < colNum ∧ colNum ≤ st.width then
              done { st with cursorRow := rowNum - 1, cursorCol := colNum - 1,
                             feedback := some ("Jumped to row " ++ toString rowNum ++
                               ", col " ++ toString colNum) }
            else
              done { st with feedback := some "Invalid row/column number" }
          | _, _ =>
            done { st with
              feedback := some "Invalid format. Use: row number, cell (A5), or row,col" }
        | none =>
          done { st with
            feedback := some "Invalid format. Use: row number, cell (A5), or row,col" }

/-! ### The data sources (`SheetDataSource`, `LazySheetData`, `RowCache`). -/

/-- Eagerly loaded sheet data: the dense body rows (cell display strings)
and the parallel dense formula grid.  `SheetData::from_range_with_formulas`
guarantees `height == rows.len()`. -/
structure SheetData where
  rows : List (List String)
  formulas : List (List (Option String))
deriving Repr, DecidableEq

/-- Models `SheetData.height` (the `height` field equals `rows.len()`). -/
def SheetData.height (d : SheetData) : Nat := d.rows.length

/-- Lazily loaded sheet data: the body rows the underlying range would
produce, and the dense formula grid that `get_formulas_for_range` realises
row by row. -/
structure LazySheetData where
  body : List (List String)
  formulas : List (List (Option String))
deriving Repr, DecidableEq

/-- Models `LazySheetData.height` (`range height - 1`, the body row count). -/
def LazySheetData.height (d : LazySheetData) : Nat := d.body.length

/-- Models `LazySheetData::get_rows`: rows `[start, min(start+count, height))`,
extracted by skipping `start` body rows and taking `end - start`. -/
def LazySheetData.getRows (d : LazySheetData) (start count : Nat) :
    List (List String) × List (List (Option String)) :=
  let e := min (start + count) d.height
  ((d.body.drop start).take (e - start), (d.formulas.drop start).take (e - start))

/-- Models `RowCache`: one contiguous resident chunk of rows plus formulas. -/
structure RowCache where
  startRow : Nat
  rows : List (List String)
  formulas : List (List (Option String))
deriving Repr, DecidableEq

/-- The `Lazy` variant's state: the underlying data, the optional cache and
the configured cache window size. -/
structure LazySource where
  data : LazySheetData
  cache : Option RowCache
  cacheSize : Nat
deriving Repr, DecidableEq

/-- The cache-miss test of `SheetDataSource::get_rows`: reload when there is
no cache or `start` falls outside `[start_row, start_row + rows.len())`. -/
def needsReload (cache : Option RowCache) (start : Nat) : Bool :=
  match cache with
  | none => true
  | some c => decide (start < c.startRow) || decide (c.startRow + c.rows.length ≤ start)

/-- The reload of `SheetDataSource::get_rows`: the new window begins at
`start.saturating_sub(cache_size / 4)` and spans `cache_size` rows (clamped
to the sheet height by `LazySheetData::get_rows`). -/
def reloadCache (data : LazySheetData) (cacheSize start : Nat) : RowCache :=
  let cacheStart := start - cacheSize / 4
  let rf := data.getRows cacheStart cacheSize
  ⟨cacheStart, rf.1, rf.2⟩

/-- The `Lazy` branch of `SheetDataSource::get_rows`: reload on miss, then
serve `cache.rows[start - start_row .. min(offset + count, cache_len)]`.
`none` models the aborting slice when the offset exceeds the cache length;
the unreachable empty-cache arm returns empty slices like the code does. -/
def LazySource.getRows (src : LazySource) (start count : Nat) :
    Option (List (List String) × List (List (Option String))) × LazySource :=
  let cache1 := if needsReload src.cache start then
                  some (reloadCache src.data src.cacheSize start)
                else src.cache
  let src1 : LazySource := { src with cache := cache1 }
  match cache1 with
  | some c =>
    let offset := start - c.startRow
    let e := min (offset + count) c.rows.length
    if offset ≤ c.rows.length then
      (some ((c.rows.drop offset).take (e - offset),
             (c.formulas.drop offset).take (e - offset)), src1)
    else (none, src1)
  | none => (some ([], []), src1)

/-- The `Eager` branch of `SheetDataSource::get_rows`:
`&rows[start .. min(start+count, rows.len())]`; the slice aborts (modelled
`none`) when `start` exceeds the row count. -/
def SheetData.getRows (d : SheetData) (start count : Nat) :
    Option (List (List String) × List (List (Option String))) :=
  let e := min (start + count) d.rows.length
  if start ≤ d.rows.length then
    (some ((d.rows.drop start).take (e - start), (d.formulas.drop start).take (e - start)))
  else none

/-- Models `SheetDataSource`: eager or windowed, as selected at sheet-load time. -/
inductive SheetDataSource
  | eager (d : SheetData)
  | lazy (src : LazySource)
deriving Repr, DecidableEq

/-- Models `SheetDataSource::height`. -/
def SheetDataSource.height : SheetDataSource → Nat
  | .eager d => d.height
  | .lazy src => src.data.height

/-- Models `SheetDataSource::get_rows`, threading the cache state of the windowed
variant. -/
def SheetDataSource.getRows : SheetDataSource → Nat → Nat →
    Option (List (List String) × List (List (Option String))) × SheetDataSource
  | .eager d, start, count => (d.getRows start count, .eager d)
  | .lazy src, start, count =>
    let rs := src.getRows start count
    (rs.1, .lazy rs.2)

/-! ### The search engine (`perform_search`). -/

/-- Substring containment on lists of characters. -/
def subListAt (needle hay : List Char) : Bool :=
  (List.range (hay.length + 1)).any (fun i => needle.isPrefixOf (hay.drop i))

/-- The per-cell test of `perform_search`: lowercase the display string and
the query and test substring containment. -/
def cellMatches (queryLower : String) (cell : String) : Bool :=
  subListAt queryLower.data cell.toLower.data

/-- The inner column loop of `perform_search`: enumerate the cells of row
`ri` starting at column `j` and record `(ri, col)` for each match. -/
def rowMatches (q : String) (ri : Nat) : Nat → List String → List (Nat × Nat)
  | _, [] => []
  | j, c :: cs =>
    (if cellMatches q c then [(ri, j)] else []) ++ rowMatches q ri (j + 1) cs

/-- The row loop of one search chunk: rows are enumerated from absolute row
index `ri` upward. -/
def chunkMatches (q : String) : Nat → List (List String) → List (Nat × Nat)
  | _, [] => []
  | ri, row :: rest => rowMatches q ri 0 row ++ chunkMatches q (ri + 1) rest

/-- The chunk starts of `for chunk_start in (0..total_height).step_by(500)`. -/
def chunkStarts (h : Nat) : List Nat := (List.range ((h + 499) / 500)).map (· * 500)

/-- The chunk loop of `perform_search`: for each chunk start fetch
`min(500, height - start)` rows and accumulate the matches in scan order. -/
def searchChunks (q : String) (h : Nat) :
    SheetDataSource → List Nat → List (Nat × Nat) × SheetDataSource
  | src, [] => ([], src)
  | src, cs :: rest =>
    let chunk := min 500 (h - cs)
    let rs := src.getRows cs chunk
    let ms := match rs.1 with
              | some rf => chunkMatches q cs rf.1
              | none => []
    let tail := searchChunks q h rs.2 rest
    (ms ++ tail.1, tail.2)

/-- Models `TuiState::perform_search`, restricted to the match list it produces: an
empty query clears the matches, otherwise the sheet is scanned row-major in
500-row chunks with the lowercased query. -/
def performSearch (q : String) (src : SheetDataSource) :
    List (Nat × Nat) × SheetDataSource :=
  if q = "" then ([], src)
  else searchChunks q.toLower src.height src (chunkStarts src.height)

/-- Strict row-major order on match coordinates. -/
def rowColLt (a b : Nat × Nat) : Prop :=
  a.1 < b.1 ∨ (a.1 = b.1 ∧ a.2 < b.2)

/-! ### Concrete instances used by the theorems below. -/

/-- A session on a 10-row, 30-column sheet with the cursor at `(0, 3)`,
in jump mode (the jump input is substituted per scenario). -/
def tenRowSheetState : TuiState :=
  ⟨[⟨"Sheet1", 10, 30⟩], 0, 0, 3, 0, "", [], none, true, "", none⟩

/-- A 2x2 sheet with the cursor at the bottom-right cell `(1, 1)`. -/
def edgeCursorState : TuiState :=
  ⟨[⟨"S", 2, 2⟩], 0, 1, 1, 0, "", [], none, false, "", none⟩

/-- A session with cursor row 5 and scroll offset 10 (cursor above the
scrolled viewport). -/
def scrollState : TuiState :=
  ⟨[⟨"S", 100, 5⟩], 0, 5, 3, 10, "", [], none, false, "", none⟩

/-- A sheet with a header but zero body rows and five columns. -/
def headerOnlyState : TuiState :=
  ⟨[⟨"S", 0, 5⟩], 0, 0, 0, 0, "", [], none, false, "", none⟩

/-- A fully degenerate sheet: zero body rows and zero columns. -/
def emptySheetState : TuiState :=
  ⟨[⟨"S", 0, 0⟩], 0, 0, 0, 0, "", [], none, false, "", none⟩

/-- A three-sheet workbook with dirty cursor, scroll and search state. -/
def threeSheetState : TuiState :=
  ⟨[⟨"A", 5, 2⟩, ⟨"B", 7, 3⟩, ⟨"C", 9, 4⟩], 1, 3, 2, 1, "foo", [(1, 1)], some 0,
   false, "", none⟩

/-- A 3x2 sheet with the cursor strictly inside the grid at `(1, 0)`. -/
def interiorCursorState : TuiState :=
  ⟨[⟨"S", 3, 2⟩], 0, 1, 0, 0, "", [], none, false, "", none⟩

/-- A 1200-row lazily loaded sheet with the production cache size of 200. -/
def wideLazySource : SheetDataSource :=
  .lazy ⟨⟨List.replicate 1200 ["x"], List.replicate 1200 [none]⟩, none, 200⟩

/-- A 40-row lazily loaded sheet with cache window size 8. -/
def smallLazySource : LazySource :=
  ⟨⟨List.replicate 40 ["x"], List.replicate 40 [none]⟩, none, 8⟩

/-- A 12-row lazy sheet body used to witness the cache-hit theorem. -/
def mediumLazyData : LazySheetData :=
  ⟨List.replicate 12 ["x"], List.replicate 12 [none]⟩

/-! ## Theorems -/

/-- Auxiliary: for `1 ≤ v < 2 ^ 64` the wrapping decrement is the plain one. -/
theorem wrapSub64_one (v : Nat) (h1 : 1 ≤ v) (h2 : v < U64) : wrapSub64 v 1 = v - 1 := by
  unfold wrapSub64 U64
  unfold U64 at h2
  omega

/-- Claim C3, counterexample: for the Temporal serial 61 (integer part greater
than 60, no time fraction) the raw projection renders 1900-03-01 while the
display projection renders 1900-02-28 — the two projections do not render the
same calendar date, so the one-day correction is not applied in both. -/
theorem c3_raw_display_differ_at_61 :
    (60 : Int) < 61 ∧
    cellDateTimeRawString 61 = some "1900-03-01" ∧
    cellDateTimeDisplayString 61 = some "1900-02-28" ∧
    cellDateTimeRawString 61 ≠ cellDateTimeDisplayString 61 := by
  refine ⟨by decide, by decide, by decide, by decide⟩

/-- Claim C3, amended: the 1900 leap-year-defect correction is applied only in
the display projection.  For every integer serial `d` greater than 60 whose
corrected day count still lands inside chrono's representable date range
(`d ≤ 95052171`, i.e. adjusted serial at most `NaiveDate::MAX`), the display
projection renders exactly the calendar date the raw projection renders for
serial `d - 1` — one day before the raw rendering of `d`; beyond that range
the projections diverge further (the raw arm aborts, the display arm falls
back to `Date[days]`). -/
theorem c3_display_applies_correction (d : Int) (h : 60 < d) (hr : d ≤ 95052171) :
    cellDateTimeDisplayString d = cellDateTimeRawString (d - 1) ∧
    (cellDateTimeRawString (d - 1)).isSome = true := by
  unfold cellDateTimeDisplayString cellDateTimeRawString durationMaxDays
    chronoMinDays chronoMaxDays
  rw [if_pos h]
  dsimp only
  have hA : -(106751991167 : Int) ≤ d - 1 ∧ d - 1 ≤ 106751991167 := by omega
  have hB : -(96465658 : Int) ≤ d - 1 - 25569 ∧ d - 1 - 25569 ≤ 95026601 := by omega
  rw [if_pos hA, if_pos hB, if_pos hA, if_pos hB]
  exact ⟨rfl, rfl⟩

/-- Witness for `c3_display_applies_correction` at serial 61. -/
theorem c3_display_applies_correction_witness :
    ((60 : Int) < 61 ∧ (61 : Int) ≤ 95052171) ∧
    cellDateTimeDisplayString 61 = cellDateTimeRawString 60 ∧
    (cellDateTimeRawString 60).isSome = true := by
  have h := c3_display_applies_correction 61 (by decide) (by decide)
  exact ⟨⟨by decide, by decide⟩, h.1, h.2⟩

/-- Claim C7, counterexample: with viewport height 0 (and cursor row 5, scroll
offset 10) one `update_scroll` call yields scroll offset 5 but a second call
drops it to 0 — `update_scroll` is not idempotent for every viewport height. -/
theorem c7_not_idempotent_at_zero_viewport :
    (updateScroll scrollState 0).scrollOffset = 5 ∧
    (updateScroll (updateScroll scrollState 0) 0).scrollOffset = 0 ∧
    (updateScroll (updateScroll scrollState 0) 0).scrollOffset ≠
      (updateScroll scrollState 0).scrollOffset := by
  refine ⟨by decide, by decide, by decide⟩

/-- Auxiliary: `update_scroll` never changes the cursor row. -/
theorem updateScroll_cursorRow (st : TuiState) (vh : Nat) :
    (updateScroll st vh).cursorRow = st.cursorRow := rfl

/-- Auxiliary: in the regime where neither the guard sum nor the viewport
decrement wraps, the new scroll offset is the scroll-down target
`cursor_row - (vh - 1)` when the cursor escaped below the viewport, and
`min cursor_row scroll_offset` otherwise. -/
theorem updateScroll_scrollOffset_eq (st : TuiState) (vh : Nat)
    (h1 : 1 ≤ vh) (hv : vh < U64) (hs : st.scrollOffset + vh < U64) :
    (updateScroll st vh).scrollOffset =
      if st.scrollOffset + vh ≤ st.cursorRow then st.cursorRow - (vh - 1)
      else min st.cursorRow st.scrollOffset := by
  unfold updateScroll wrapAdd64
  rw [wrapSub64_one vh h1 hv, Nat.mod_eq_of_lt hs]
  dsimp only
  split_ifs <;> omega

/-- Claim C7, amended: `update_scroll` is idempotent for every positive
viewport height whenever its guard addition does not overflow `usize`
(`scroll_offset + viewport_height < 2^64` and
`cursor_row + viewport_height < 2^64` — always true of a real sheet and
terminal): calling it twice with the same viewport height yields the same
scroll offset as calling it once, because after one call the cursor row lies
within `[scroll, scroll + viewport_height)`.  At viewport height 0, and in
the wrapping regime of the guard sum, idempotence fails. -/
theorem c7_update_scroll_idempotent (st : TuiState) (vh : Nat)
    (h1 : 1 ≤ vh) (h2 : st.scrollOffset + vh < U64) (h3 : st.cursorRow + vh < U64) :
    (updateScroll (updateScroll st vh) vh).scrollOffset =
      (updateScroll st vh).scrollOffset := by
  have hv : vh < U64 := by omega
  have he1 := updateScroll_scrollOffset_eq st vh h1 hv h2
  have hs2 : (updateScroll st vh).scrollOffset + vh < U64 := by
    rw [he1]
    split_ifs <;> omega
  have he2 := updateScroll_scrollOffset_eq (updateScroll st vh) vh h1 hv hs2
  rw [he2, updateScroll_cursorRow, he1]
  split_ifs <;> omega

/-- Witness for `c7_update_scroll_idempotent` on `scrollState` with viewport
height 3. -/
theorem c7_update_scroll_idempotent_witness :
    (1 ≤ 3 ∧ scrollState.scrollOffset + 3 < U64 ∧ scrollState.cursorRow + 3 < U64) ∧
    (updateScroll (updateScroll scrollState 3) 3).scrollOffset =
      (updateScroll scrollState 3).scrollOffset := by
  refine ⟨⟨by decide, by decide, by decide⟩,
    c7_update_scroll_idempotent scrollState 3 (by decide) (by decide) (by decide)⟩

/-- Projection equations for the navigation operations, read off their
definitions. -/
theorem moveRight_cursorCol (st : TuiState) :
    (moveRight st).cursorCol =
      if st.cursorCol < st.width - 1 then st.cursorCol + 1 else st.cursorCol := by
  unfold moveRight
  split <;> rfl

/-- Fact: `move_right` leaves the sheet (hence the width) unchanged. -/
theorem moveRight_width (st : TuiState) : (moveRight st).width = st.width := by
  unfold moveRight
  split <;> rfl

/-- Fact: `move_left` decrements the column, clamped at 0. -/
theorem moveLeft_cursorCol (st : TuiState) :
    (moveLeft st).cursorCol =
      if 0 < st.cursorCol then st.cursorCol - 1 else st.cursorCol := by
  unfold moveLeft
  split <;> rfl

/-- Fact: `move_up` decrements the row, clamped at 0. -/
theorem moveUp_cursorRow (st : TuiState) :
    (moveUp st).cursorRow =
      if 0 < st.cursorRow then st.cursorRow - 1 else st.cursorRow := by
  unfold moveUp
  split <;> rfl

/-- Fact: `move_up` leaves the sheet (hence the height) unchanged. -/
theorem moveUp_height (st : TuiState) : (moveUp st).height = st.height := by
  unfold moveUp
  split <;> rfl

/-- Fact: `move_down` increments the row, clamped at the last row. -/
theorem moveDown_cursorRow (st : TuiState) :
    (moveDown st).cursorRow =
      if st.cursorRow < st.height - 1 then st.cursorRow + 1 else st.cursorRow := by
  unfold moveDown
  split <;> rfl

/-- Fact: `move_down` leaves the sheet (hence the height) unchanged. -/
theorem moveDown_height (st : TuiState) : (moveDown st).height = st.height := by
  unfold moveDown
  split <;> rfl

/-- Claim C6, counterexample: on a 2x2 sheet with the cursor at the last
column (position `(1, 1)`), `move_right` clamps (no move) and the following
`move_left` moves to column 0, so the pair does not restore the original
column. -/
theorem c6_roundtrip_fails_at_last_column :
    edgeCursorState.cursorCol = 1 ∧
    edgeCursorState.cursorCol < edgeCursorState.width ∧
    (moveLeft (moveRight edgeCursorState)).cursorCol = 0 ∧
    (moveLeft (moveRight edgeCursorState)).cursorCol ≠ edgeCursorState.cursorCol := by
  refine ⟨by decide, by decide, by decide, by decide⟩

/-- Claim C6, amended: for every valid cursor position
(`row < height`, `col < width`), each move round-trip restores the cursor
under its own interiority condition, independently of the others:
`move_right` then `move_left` restores the column whenever
`col + 1 < width`; `move_down` then `move_up` restores the row whenever
`row + 1 < height`; and `move_up` then `move_down` restores the row whenever
`0 < row`.  When the first move of a pair is clamped at an edge the
round-trip need not restore the position (see the counterexample). -/
theorem c6_move_roundtrip_interior (st : TuiState)
    (hrv : st.cursorRow < st.height)
    (hcv : st.cursorCol < st.width) :
    (st.cursorCol + 1 < st.width →
      (moveLeft (moveRight st)).cursorCol = st.cursorCol) ∧
    (st.cursorRow + 1 < st.height →
      (moveUp (moveDown st)).cursorRow = st.cursorRow) ∧
    (0 < st.cursorRow →
      (moveDown (moveUp st)).cursorRow = st.cursorRow) := by
  refine ⟨?_, ?_, ?_⟩
  · intro hc
    simp only [moveLeft_cursorCol, moveRight_cursorCol, moveRight_width]
    split_ifs <;> omega
  · intro hr
    simp only [moveUp_cursorRow, moveDown_cursorRow, moveDown_height]
    split_ifs <;> omega
  · intro hr0
    simp only [moveDown_cursorRow, moveUp_cursorRow, moveUp_height]
    split_ifs <;> omega

/-- Witness for `c6_move_roundtrip_interior` at the valid interior position
`(1, 0)` of a 3x2 sheet, discharging the validity hypotheses and each
round-trip's own interiority condition. -/
theorem c6_move_roundtrip_interior_witness :
    (interiorCursorState.cursorRow < interiorCursorState.height ∧
     interiorCursorState.cursorCol < interiorCursorState.width) ∧
    (moveLeft (moveRight interiorCursorState)).cursorCol =
      interiorCursorState.cursorCol ∧
    (moveUp (moveDown interiorCursorState)).cursorRow =
      interiorCursorState.cursorRow ∧
    (moveDown (moveUp interiorCursorState)).cursorRow =
      interiorCursorState.cursorRow := by
  have h := c6_move_roundtrip_interior interiorCursorState (by decide) (by decide)
  exact ⟨⟨by decide, by decide⟩,
    h.1 (by decide), h.2.1 (by decide), h.2.2 (by decide)⟩

/-- Claim C9: on every sheet switch (next or previous) in a workbook with
more than one sheet, the cursor and scroll offset are reset to zero and the
search state (query, match list, current index) is cleared, regardless of the
state before the switch. -/
theorem c9_sheet_switch_resets (st : TuiState) (h : 1 < st.sheets.length) :
    (switchToNextSheet st).cursorRow = 0 ∧
    (switchToNextSheet st).cursorCol = 0 ∧
    (switchToNextSheet st).scrollOffset = 0 ∧
    (switchToNextSheet st).searchQuery = "" ∧
    (switchToNextSheet st).searchMatches = [] ∧
    (switchToNextSheet st).currentMatchIndex = none ∧
    (switchToPrevSheet st).cursorRow = 0 ∧
    (switchToPrevSheet st).cursorCol = 0 ∧
    (switchToPrevSheet st).scrollOffset = 0 ∧
    (switchToPrevSheet st).searchQuery = "" ∧
    (switchToPrevSheet st).searchMatches = [] ∧
    (switchToPrevSheet st).currentMatchIndex = none := by
  unfold switchToNextSheet switchToPrevSheet clearSearch resetCursor
  have hn : ¬ st.sheets.length ≤ 1 := by omega
  rw [if_neg hn, if_neg hn]
  simp

/-- Witness for `c9_sheet_switch_resets` on a dirty three-sheet session. -/
theorem c9_sheet_switch_resets_witness :
    1 < threeSheetState.sheets.length ∧
    (switchToNextSheet threeSheetState).cursorRow = 0 ∧
    (switchToNextSheet threeSheetState).searchMatches = [] ∧
    (switchToPrevSheet threeSheetState).scrollOffset = 0 := by
  have h := c9_sheet_switch_resets threeSheetState (by decide)
  exact ⟨by decide, h.1, h.2.2.2.2.1, h.2.2.2.2.2.2.2.2.1⟩

/-- Claim C10, counterexample: on a sheet with zero body rows but five
columns (`height = 0`, `width = 5`), `move_right` moves the cursor from
`(0, 0)` to column 1, so not every navigation operation leaves the cursor at
`(0, 0)` when only one of the two dimensions is zero. -/
theorem c10_move_right_with_zero_height :
    headerOnlyState.height = 0 ∧
    headerOnlyState.cursorRow = 0 ∧ headerOnlyState.cursorCol = 0 ∧
    (moveRight headerOnlyState).cursorCol = 1 := by
  refine ⟨by decide, by decide, by decide, by decide⟩

/-- Claim C10, amended: every navigator operation is total (the bounds
computations saturate), and on a sheet whose height AND width are both zero
every operation leaves the cursor at `(0, 0)`; with only `height = 0` the
row-changing operations still pin the row at 0 (and symmetrically for
columns), but a column operation may move the column on a zero-height sheet
with positive width. -/
theorem c10_degenerate_sheet_ops (st : TuiState)
    (hh : st.height = 0) (hw : st.width = 0)
    (hr : st.cursorRow = 0) (hc : st.cursorCol = 0) :
    ((moveUp st).cursorRow = 0 ∧ (moveUp st).cursorCol = 0) ∧
    ((moveDown st).cursorRow = 0 ∧ (moveDown st).cursorCol = 0) ∧
    ((moveLeft st).cursorRow = 0 ∧ (moveLeft st).cursorCol = 0) ∧
    ((moveRight st).cursorRow = 0 ∧ (moveRight st).cursorCol = 0) ∧
    ((pageUp st 10).cursorRow = 0 ∧ (pageUp st 10).cursorCol = 0) ∧
    ((pageDown st 10).cursorRow = 0 ∧ (pageDown st 10).cursorCol = 0) ∧
    ((moveToTop st).cursorRow = 0 ∧ (moveToTop st).cursorCol = 0) ∧
    ((moveToBottom st).cursorRow = 0 ∧ (moveToBottom st).cursorCol = 0) ∧
    ((moveToStartOfRow st).cursorRow = 0 ∧ (moveToStartOfRow st).cursorCol = 0) ∧
    ((moveToEndOfRow st).cursorRow = 0 ∧ (moveToEndOfRow st).cursorCol = 0) := by
  unfold moveUp moveDown moveLeft moveRight pageUp pageDown moveToTop moveToBottom
    moveToStartOfRow moveToEndOfRow
  dsimp only
  rw [hh, hw]
  split_ifs <;> simp_all

/-- Witness for `c10_degenerate_sheet_ops` on the fully empty sheet. -/
theorem c10_degenerate_sheet_ops_witness :
    (emptySheetState.height = 0 ∧ emptySheetState.width = 0 ∧
     emptySheetState.cursorRow = 0 ∧ emptySheetState.cursorCol = 0) ∧
    (moveDown emptySheetState).cursorRow = 0 ∧
    (moveRight emptySheetState).cursorCol = 0 := by
  have h := c10_degenerate_sheet_ops emptySheetState
    (by decide) (by decide) (by decide) (by decide)
  exact ⟨⟨by decide, by decide, by decide, by decide⟩, h.2.1.1, h.2.2.2.1.2⟩

set_option maxRecDepth 8000 in
/-- Claim C1: evaluation of the windowed source at the failing input.  On a
1200-row lazily loaded sheet with the production cache window of 200 rows,
`rows(0, 500)` — the exact shape of a `perform_search` chunk request —
returns only the 200 cached rows instead of the
`min(0 + 500, 1200) - 0 = 500` rows the contract requires: the result is
truncated to the cache window, so the search loop silently skips rows
200..499 of the chunk. -/
theorem c1_lazy_rows_truncated :
    (SheetDataSource.getRows wideLazySource 0 500).1.map (fun rf => rf.1.length) =
      some 200 ∧
    min (0 + 500) (SheetDataSource.height wideLazySource) - 0 = 500 := by
  refine ⟨by decide, by decide⟩

/-- Claim C5, counterexample: with window size `W = 8` the first miss at
`start = 4` loads the window `[2, 10)`; the subsequent query at `start = 0`
is within `3W/4 = 6` of 4, yet it misses the (backward-biased by only `W/4`)
window and triggers a second consecutive reload. -/
theorem c5_backward_query_reloads :
    needsReload smallLazySource.cache 4 = true ∧
    ((smallLazySource.getRows 4 1).2).cache.map (fun c => (c.startRow, c.rows.length)) =
      some (2, 8) ∧
    4 - 0 ≤ 3 * 8 / 4 ∧
    needsReload ((smallLazySource.getRows 4 1).2).cache 0 = true := by
  refine ⟨by decide, by decide, by decide, by decide⟩

/-- Claim C5, amended: following a reload for start `s` with window size `W`
(window fully inside the sheet), the cache serves without reloading every
query whose start lies in the freshly loaded window
`[s - W/4, s - W/4 + W)` — which contains all starts from `s` up to
`s + 3W/4` — but a start more than `W/4` before `s`, although within `3W/4`
of `s`, does trigger a reload. -/
theorem c5_window_query_hits (data : LazySheetData) (W s start' count : Nat)
    (hfit : s - W / 4 + W ≤ data.height)
    (h1 : s - W / 4 ≤ start')
    (h2 : start' < s - W / 4 + W) :
    needsReload (some (reloadCache data W s)) start' = false ∧
    (LazySource.getRows ⟨data, some (reloadCache data W s), W⟩ start' count).2 =
      ⟨data, some (reloadCache data W s), W⟩ := by
  have hlen : (reloadCache data W s).rows.length = W := by
    unfold reloadCache LazySheetData.getRows
    dsimp only
    rw [List.length_take, List.length_drop]
    unfold LazySheetData.height at hfit ⊢
    omega
  have hstart : (reloadCache data W s).startRow = s - W / 4 := rfl
  have hnr : needsReload (some (reloadCache data W s)) start' = false := by
    simp only [needsReload]
    rw [hlen, hstart]
    simp only [Bool.or_eq_false_iff, decide_eq_false_iff_not]
    omega
  refine ⟨hnr, ?_⟩
  unfold LazySource.getRows
  dsimp only
  simp only [hnr, Bool.false_eq_true, if_false]
  split <;> rfl

/-- Witness for `c5_window_query_hits`: a 12-row sheet, window size 8,
reload at start 4 (window `[2, 10)`), then a hit at start 6. -/
theorem c5_window_query_hits_witness :
    (4 - 8 / 4 + 8 ≤ mediumLazyData.height ∧ 4 - 8 / 4 ≤ 6 ∧ 6 < 4 - 8 / 4 + 8) ∧
    needsReload (some (reloadCache mediumLazyData 8 4)) 6 = false ∧
    (LazySource.getRows ⟨mediumLazyData, some (reloadCache mediumLazyData 8 4), 8⟩ 6 1).2 =
      ⟨mediumLazyData, some (reloadCache mediumLazyData 8 4), 8⟩ := by
  have h := c5_window_query_hits mediumLazyData 8 4 6 1 (by decide) (by decide) (by decide)
  exact ⟨⟨by decide, by decide, by decide⟩, h.1, h.2⟩

/-- Claim C4: on a 10-row (30-column) sheet with the cursor at `(0, 3)`,
confirming jump input "5" moves the cursor to row 4 with the column
unchanged; "B3" moves it to `(2, 1)`; "AA1" to column 26 (row 0); "3,2" to
`(2, 1)`; and "0", "A0" and "999999" are all rejected with no cursor
movement (each posting a feedback message). -/
theorem c4_jump_scenarios :
    ((performJump { tenRowSheetState with jumpInput := "5" }).cursorRow = 4 ∧
     (performJump { tenRowSheetState with jumpInput := "5" }).cursorCol = 3) ∧
    ((performJump { tenRowSheetState with jumpInput := "B3" }).cursorRow = 2 ∧
     (performJump { tenRowSheetState with jumpInput := "B3" }).cursorCol = 1) ∧
    ((performJump { tenRowSheetState with jumpInput := "AA1" }).cursorRow = 0 ∧
     (performJump { tenRowSheetState with jumpInput := "AA1" }).cursorCol = 26) ∧
    ((performJump { tenRowSheetState with jumpInput := "3,2" }).cursorRow = 2 ∧
     (performJump { tenRowSheetState with jumpInput := "3,2" }).cursorCol = 1) ∧
    ((performJump { tenRowSheetState with jumpInput := "0" }).cursorRow = 0 ∧
     (performJump { tenRowSheetState with jumpInput := "0" }).cursorCol = 3 ∧
     (performJump { tenRowSheetState with jumpInput := "0" }).feedback.isSome = true) ∧
    ((performJump { tenRowSheetState with jumpInput := "A0" }).cursorRow = 0 ∧
     (performJump { tenRowSheetState with jumpInput := "A0" }).cursorCol = 3 ∧
     (performJump { tenRowSheetState with jumpInput := "A0" }).feedback.isSome = true) ∧
    ((performJump { tenRowSheetState with jumpInput := "999999" }).cursorRow = 0 ∧
     (performJump { tenRowSheetState with jumpInput := "999999" }).cursorCol = 3 ∧
     (performJump { tenRowSheetState with jumpInput := "999999" }).feedback.isSome
       = true) := by
  refine ⟨⟨by decide, by decide⟩, ⟨by decide, by decide⟩, ⟨by decide, by decide⟩,
    ⟨by decide, by decide⟩, ⟨by decide, by decide, by decide⟩,
    ⟨by decide, by decide, by decide⟩, ⟨by decide, by decide, by decide⟩⟩

/-- Claim C2: for every session state and every non-empty jump input
(including strings like "A0" whose digit part parses to 0), resolving the
jump is total in the model — every parsing path ends in an explicit accept
or reject outcome that posts a feedback message, consumes the buffer and
leaves jump mode; the search state, scroll offset and sheet state are
untouched, and the cursor either does not move at all (a recoverable
rejection) or moves to a row inside the sheet. -/
theorem c2_jump_always_resolves (st : TuiState) (h : st.jumpInput ≠ "") :
    (performJump st).feedback.isSome = true ∧
    (performJump st).jumpMode = false ∧
    (performJump st).jumpInput = "" ∧
    (performJump st).searchQuery = st.searchQuery ∧
    (performJump st).searchMatches = st.searchMatches ∧
    (performJump st).currentMatchIndex = st.currentMatchIndex ∧
    (performJump st).scrollOffset = st.scrollOffset ∧
    (performJump st).sheets = st.sheets ∧
    (performJump st).currentSheetIndex = st.currentSheetIndex ∧
    (((performJump st).cursorRow = st.cursorRow ∧
      (performJump st).cursorCol = st.cursorCol) ∨
     (performJump st).cursorRow < st.height) := by
  unfold performJump jumpDone
  rw [if_neg h]
  dsimp only
  split
  · rename_i rowNum heq
    split_ifs with hb
    · exact ⟨rfl, rfl, rfl, rfl, rfl, rfl, rfl, rfl, rfl, Or.inr (by dsimp only; omega)⟩
    · exact ⟨rfl, rfl, rfl, rfl, rfl, rfl, rfl, rfl, rfl, Or.inl ⟨rfl, rfl⟩⟩
  · split
    · rename_i p heq2
      split_ifs with hb
      · exact ⟨rfl, rfl, rfl, rfl, rfl, rfl, rfl, rfl, rfl, Or.inr (by dsimp only; omega)⟩
      · exact ⟨rfl, rfl, rfl, rfl, rfl, rfl, rfl, rfl, rfl, Or.inl ⟨rfl, rfl⟩⟩
    · split
      · split
        · rename_i rn cn heq3
          split_ifs with hb
          · exact ⟨rfl, rfl, rfl, rfl, rfl, rfl, rfl, rfl, rfl, Or.inr (by dsimp only; omega)⟩
          · exact ⟨rfl, rfl, rfl, rfl, rfl, rfl, rfl, rfl, rfl, Or.inl ⟨rfl, rfl⟩⟩
        · exact ⟨rfl, rfl, rfl, rfl, rfl, rfl, rfl, rfl, rfl, Or.inl ⟨rfl, rfl⟩⟩
      · exact ⟨rfl, rfl, rfl, rfl, rfl, rfl, rfl, rfl, rfl, Or.inl ⟨rfl, rfl⟩⟩

/-- Witness for `c2_jump_always_resolves`: the malformed input "A0" on the
10-row sheet resolves to a reported rejection. -/
theorem c2_jump_always_resolves_witness :
    ({ tenRowSheetState with jumpInput := "A0" } : TuiState).jumpInput ≠ "" ∧
    (performJump { tenRowSheetState with jumpInput := "A0" }).feedback.isSome = true := by
  refine ⟨by decide, ?_⟩
  exact (c2_jump_always_resolves { tenRowSheetState with jumpInput := "A0" } (by decide)).1

/-- Auxiliary: every match recorded by the column loop carries the row index
`ri` and a column at least `j`. -/
theorem rowMatches_mem (q : String) (ri : Nat) :
    ∀ (j : Nat) (row : List String) (x : Nat × Nat),
      x ∈ rowMatches q ri j row → x.1 = ri ∧ j ≤ x.2 := by
  intro j row
  induction row generalizing j with
  | nil => intro x hx; simp [rowMatches] at hx
  | cons c cs ih =>
    intro x hx
    unfold rowMatches at hx
    rw [List.mem_append] at hx
    rcases hx with hx | hx
    · split at hx
      · rw [List.mem_singleton] at hx
        subst hx
        exact ⟨rfl, Nat.le_refl j⟩
      · simp at hx
    · have h2 := ih (j + 1) x hx
      exact ⟨h2.1, by omega⟩

/-- Auxiliary: the column loop produces matches with strictly increasing
columns on one fixed row, hence sorted in row-major order. -/
theorem rowMatches_pairwise (q : String) (ri : Nat) :
    ∀ (j : Nat) (row : List String), List.Pairwise rowColLt (rowMatches q ri j row) := by
  intro j row
  induction row generalizing j with
  | nil => simp [rowMatches]
  | cons c cs ih =>
    unfold rowMatches
    rw [List.pairwise_append]
    refine ⟨?_, ih (j + 1), ?_⟩
    · split <;> simp
    · intro a ha b hb
      split at ha
      · rw [List.mem_singleton] at ha
        subst ha
        have h2 := rowMatches_mem q ri (j + 1) cs b hb
        exact Or.inr ⟨h2.1.symm, by omega⟩
      · simp at ha

/-- Auxiliary: every match of a chunk scanned from absolute row `ri` lies in
the row band `[ri, ri + rows.length)`. -/
theorem chunkMatches_mem (q : String) :
    ∀ (ri : Nat) (rows : List (List String)) (x : Nat × Nat),
      x ∈ chunkMatches q ri rows → ri ≤ x.1 ∧ x.1 < ri + rows.length := by
  intro ri rows
  induction rows generalizing ri with
  | nil => intro x hx; simp [chunkMatches] at hx
  | cons row rest ih =>
    intro x hx
    unfold chunkMatches at hx
    rw [List.mem_append] at hx
    rcases hx with hx | hx
    · have h2 := rowMatches_mem q ri 0 row x hx
      simp only [List.length_cons]
      omega
    · have h2 := ih (ri + 1) x hx
      simp only [List.length_cons]
      omega

/-- Auxiliary: one chunk's matches are sorted in row-major order. -/
theorem chunkMatches_pairwise (q : String) :
    ∀ (ri : Nat) (rows : List (List String)),
      List.Pairwise rowColLt (chunkMatches q ri rows) := by
  intro ri rows
  induction rows generalizing ri with
  | nil => simp [chunkMatches]
  | cons row rest ih =>
    unfold chunkMatches
    rw [List.pairwise_append]
    refine ⟨rowMatches_pairwise q ri 0 row, ih (ri + 1), ?_⟩
    intro a ha b hb
    have h1 := rowMatches_mem q ri 0 row a ha
    have h2 := chunkMatches_mem q (ri + 1) rest b hb
    exact Or.inl (by omega)

/-- Auxiliary: the windowed source never returns more rows than requested. -/
theorem lazyGetRows_length_le (src : LazySource) (start count : Nat)
    (rf : List (List String) × List (List (Option String))) :
    (LazySource.getRows src start count).1 = some rf → rf.1.length ≤ count := by
  unfold LazySource.getRows
  dsimp only
  split
  · rename_i c heq
    by_cases hoff : start - c.startRow ≤ c.rows.length
    · rw [if_pos hoff]
      intro h
      rw [Option.some_inj] at h
      subst h
      simp only [List.length_take, List.length_drop]
      omega
    · rw [if_neg hoff]
      intro h
      simp at h
  · intro h
    rw [Option.some_inj] at h
    subst h
    simp

/-- Auxiliary: the eager source never returns more rows than requested. -/
theorem eagerGetRows_length_le (d : SheetData) (start count : Nat)
    (rf : List (List String) × List (List (Option String))) :
    SheetData.getRows d start count = some rf → rf.1.length ≤ count := by
  unfold SheetData.getRows
  dsimp only
  by_cases hs : start ≤ d.rows.length
  · rw [if_pos hs]
    intro h
    rw [Option.some_inj] at h
    subst h
    simp only [List.length_take, List.length_drop]
    omega
  · rw [if_neg hs]
    intro h
    simp at h

/-- Auxiliary: either data source returns at most `count` rows. -/
theorem getRows_length_le (src : SheetDataSource) (start count : Nat)
    (rf : List (List String) × List (List (Option String))) :
    (SheetDataSource.getRows src start count).1 = some rf → rf.1.length ≤ count := by
  cases src with
  | eager d =>
    unfold SheetDataSource.getRows
    exact eagerGetRows_length_le d start count rf
  | lazy s =>
    unfold SheetDataSource.getRows
    exact lazyGetRows_length_le s start count rf

/-- Auxiliary: every match produced by the chunk loop belongs to some chunk
start of the list, and lies at or after it. -/
theorem searchChunks_mem (q : String) (h : Nat) :
    ∀ (L : List Nat) (src : SheetDataSource) (y : Nat × Nat),
      y ∈ (searchChunks q h src L).1 → ∃ cs, cs ∈ L ∧ cs ≤ y.1 := by
  intro L
  induction L with
  | nil => intro src y hy; simp [searchChunks] at hy
  | cons cs rest ih =>
    intro src y hy
    unfold searchChunks at hy
    dsimp only at hy
    rw [List.mem_append] at hy
    rcases hy with hy | hy
    · split at hy
      · rename_i rf heq
        have h2 := chunkMatches_mem q cs rf.1 y hy
        exact ⟨cs, List.mem_cons_self cs rest, h2.1⟩
      · simp at hy
    · obtain ⟨c, hc, hcy⟩ := ih _ y hy
      exact ⟨c, List.mem_cons_of_mem cs hc, hcy⟩

/-- Auxiliary: scanning chunk starts that are at least 500 apart produces a
row-major-sorted match list, because a chunk request of at most 500 rows can
never reach into the next chunk's row band. -/
theorem searchChunks_pairwise (q : String) (h : Nat) :
    ∀ (L : List Nat) (src : SheetDataSource),
      List.Pairwise (fun a b => a + 500 ≤ b) L →
      List.Pairwise rowColLt (searchChunks q h src L).1 := by
  intro L
  induction L with
  | nil => intro src hL; simp [searchChunks]
  | cons cs rest ih =>
    intro src hL
    rw [List.pairwise_cons] at hL
    unfold searchChunks
    dsimp only
    rw [List.pairwise_append]
    refine ⟨?_, ih _ hL.2, ?_⟩
    · split
      · exact chunkMatches_pairwise q cs _
      · exact List.Pairwise.nil
    · intro a ha b hb
      obtain ⟨c, hc, hcb⟩ := searchChunks_mem q h rest _ b hb
      have hcsc := hL.1 c hc
      split at ha
      · rename_i rf heq
        have h1 := chunkMatches_mem q cs rf.1 a ha
        have h2 := getRows_length_le src cs (min 500 (h - cs)) rf heq
        have h3 : min 500 (h - cs) ≤ 500 := Nat.min_le_left _ _
        exact Or.inl (by omega)
      · simp at ha

/-- Auxiliary: consecutive chunk starts are exactly 500 apart. -/
theorem chunkStarts_pairwise (h : Nat) :
    List.Pairwise (fun a b => a + 500 ≤ b) (chunkStarts h) := by
  unfold chunkStarts
  rw [List.pairwise_map]
  have hr := List.pairwise_lt_range ((h + 499) / 500)
  exact hr.imp (by intro a b hab; omega)

/-- Claim C8: the match list produced by `perform_search` is sorted strictly
ascending in row-major order (row ascending, then column ascending within a
row), for every query and every data source — eager or windowed, whatever
the cache state. -/
theorem c8_search_matches_sorted (q : String) (src : SheetDataSource) :
    List.Pairwise rowColLt (performSearch q src).1 := by
  unfold performSearch
  split
  · exact List.Pairwise.nil
  · exact searchChunks_pairwise q.toLower src.height (chunkStarts src.height) src
      (chunkStarts_pairwise src.height)

end Xleak
